import Mathlib

/-!
# Verification of the pn532 UART frame codec and transport engine

Shallow embedding of the `pn532` Python package (files `pn532/__init__.py`,
`pn532/_stream.py`, `pn532/Rf.py`).  Bytes are modelled as `Nat` values,
Python byte strings as `List Nat` (`ord` of a one-character string is its
numeric byte; `chr` of an integer is the singleton string — but `chr` of
any other value raises, see `pychr`), and wall-clock time as integers (an
arbitrary fixed resolution of seconds; `__enter__`'s 1.0-second timeout
is one unit).  The serial
port is modelled as a trace of read events: each call to `serial.read(n)`
consumes one event from the trace and returns (a truncation of) that
event's bytes, advancing the clock by the event's duration.  This resolves
the environment's nondeterminism (byte arrival and timing) by an explicit
trace, exactly as the blocking byte channel presents it to the driver.
Python dynamic-type failures that this code can actually hit — `chr`
applied to a list inside `bytepack`, and `&` between a string and an
integer in `Error`'s bit-field accessors — are modelled as
`PErr.typeError`, raised exactly where the source raises `TypeError`.
-/

deriving instance DecidableEq for Except

/-! ## Python dynamic values and the exception taxonomy -/

/-- A Python value appearing in the `*nums` argument tuple of `bytepack`:
every call site but one passes integers; `tobytes` passes its whole `rv`
*list* as a single argument. -/
inductive PyArg
  | int (n : Nat)
  | intList (xs : List Nat)
deriving DecidableEq

/-- A Python scalar as stored in `Error.raw_code`: an integer, or a
(byte) string — `raw_get` raises `Error(data[0])` where `data[0]` is a
one-character string, `ord` never being applied. -/
inductive PyScalar
  | int (n : Nat)
  | str (cs : List Nat)
deriving DecidableEq

/-- Exceptional outcomes.  `checksumError` and `timeoutError` are the
classes in `_stream.py`; `appError` is the `Error` raised in `raw_get`,
carrying exactly the value `Error` was constructed with; `ioError` is the
`IOError` raised by `doit` when the expected ACK is something else;
`keyError` is `Frame._types[code]` on an unregistered code; `indexError`
is `data[0]`/`data[1]` on a too-short read; `typeError` is Python's
`TypeError` (`chr` applied to a list inside `bytepack`, or `str & int`
in `Error`'s bit-field accessors). -/
inductive PErr
  | checksumError
  | timeoutError
  | streamEnd
  | indexError
  | keyError
  | typeError
  | appError (raw_code : PyScalar)
  | ioError
deriving DecidableEq

/-! ## Byte utilities (`pn532/__init__.py`) -/

/-- `chr(x)`: the one-character string of an integer; any other argument
type — such as the list `tobytes` passes — raises `TypeError`. -/
def pychr : PyArg → Except PErr (List Nat)
  | .int n => .ok [n]
  | .intList _ => .error .typeError

/-- `bytepack(*nums)`: `''.join(map(chr, nums))` — the concatenation of
`chr` over the argument tuple, raising `TypeError` at the first
non-integer argument. -/
def bytepack : List PyArg → Except PErr (List Nat)
  | [] => .ok []
  | a :: rest => do
    let c ← pychr a
    let cs ← bytepack rest
    pure (c ++ cs)

/-- The loop of `tobytes`: `for i in range(l): rv.append(n & 0xFF); n >>= 8`
— the `rv` list it builds, least significant byte first. -/
def tobytesAux : Nat → Nat → List Nat
  | _, 0 => []
  | n, l + 1 => (n % 256) :: tobytesAux (n / 256) l

/-- `tobytes(n, l)` from `pn532/__init__.py`: builds `rv` and then
`return bytepack(rv)` — passing the *list* `rv` as a single vararg, so
`chr(rv)` raises `TypeError` on every call.  (Its docstring promises
big-endian bytes; no call ever returns, and the `rv` list itself is
least-significant-byte first.) -/
def tobytes (n l : Nat) : Except PErr (List Nat) :=
  bytepack [.intList (tobytesAux n l)]

/-- `Frame._checksum(data)` on a byte sequence: `s = sum(data); return -s & 0xFF`.
In Python, `-s & 0xFF` is the nonnegative residue of `-s` modulo 256. -/
def Frame.checksum (data : List Nat) : Nat := ((-(data.sum : Int)) % 256).toNat

/-- `Frame._checksum(data)` on a single number: the `numbers.Number` branch
wraps it as the one-element sequence `[data]`. -/
def Frame.checksumNum (n : Nat) : Nat := Frame.checksum [n]

/-! ## Frame codec (`pn532/__init__.py`) -/

/-- One serialized field, as dispatched in `Frame._buildpayload`:
a `numbers.Number` is packed as one byte, a byte string is appended
verbatim, and a tuple `(value, length)` goes through `tobytes`. -/
inductive PField
  | num (n : Nat)
  | raw (bs : List Nat)
  | lenval (n l : Nat)
deriving DecidableEq

/-- The `for field in fields` dispatch of `Frame._buildpayload`:
`payload += bytepack(field)` for a number, `payload += field` for bytes,
`payload += tobytes(*field)` for a tuple (which therefore raises
`TypeError`, see `tobytes`). -/
def PField.serialize : PField → Except PErr (List Nat)
  | .num n => bytepack [.int n]
  | .raw bs => .ok bs
  | .lenval n l => tobytes n l

/-- The fields loop of `_buildpayload`, appending each serialized field
in order; the first field that raises aborts the build. -/
def serializeFields : List PField → Except PErr (List Nat)
  | [] => .ok []
  | f :: rest => do
    let b ← PField.serialize f
    let bs ← serializeFields rest
    pure (b ++ bs)

/-- `Frame._buildpayload`: direction tag (0xD4 when `sent` else 0xD5),
then the command code, then the serialized fields.  `fields = none`
models `__payload__` returning `None` (the fields loop is skipped). -/
def Frame.buildpayload (sent : Bool) (code : Nat) (fields : Option (List PField)) :
    Except PErr (List Nat) := do
  let tag := if sent then [0xD4] else [0xD5]
  let codeB ← bytepack [.int code]
  let fieldB ← (match fields with
    | none => pure []
    | some fs => serializeFields fs)
  pure (tag ++ codeB ++ fieldB)

/-- `Frame.towire`: wrap the built payload in the wire envelope.
Short form when `len(payload) <= 0xFF`; the extended branch evaluates
`lm = tobytes(len_, 2)`, which always raises `TypeError`, before any
byte of the envelope is assembled. -/
def Frame.towire (sent : Bool) (code : Nat) (fields : Option (List PField)) :
    Except PErr (List Nat) := do
  let payload ← Frame.buildpayload sent code fields
  let dcs := Frame.checksum payload
  let len := payload.length
  if len ≤ 0xFF then do
    let lenB ← bytepack [.int len, .int (Frame.checksumNum len)]
    let dcsB ← bytepack [.int dcs]
    pure ([0x00, 0xFF] ++ lenB ++ payload ++ dcsB)
  else do
    let lm ← tobytes len 2
    let lcsB ← bytepack [.int (Frame.checksum lm)]
    let dcsB ← bytepack [.int dcs]
    pure ([0x00, 0xFF, 0xFF, 0xFF] ++ lm ++ lcsB ++ payload ++ dcsB)

/-- A concrete frame value as built by the caller: direction flag,
command code and the field sequence returned by its `__payload__`. -/
structure FrameS where
  sent : Bool
  code : Nat
  fields : Option (List PField)
deriving DecidableEq

def FrameS.towire (f : FrameS) : Except PErr (List Nat) :=
  Frame.towire f.sent f.code f.fields

/-- A frame given to `PN532.send`: the `ACK` and `NACK` classes override
`towire` with fixed literals, every other frame uses `Frame.towire`. -/
inductive TxFrame
  | ack
  | nack
  | generic (f : FrameS)
deriving DecidableEq

/-- `ACK.towire` is the literal `"\0\0\xFF\0\xFF\0"` and `NACK.towire`
the literal `"\0\0\xFF\xFF\0\0"`. -/
def TxFrame.towire : TxFrame → Except PErr (List Nat)
  | .ack => .ok [0x00, 0x00, 0xFF, 0x00, 0xFF, 0x00]
  | .nack => .ok [0x00, 0x00, 0xFF, 0xFF, 0x00, 0x00]
  | .generic f => f.towire

/-! ## The application `Error` frame -/

/-- The `Error` exception/frame: `__init__` stores whatever it is given
as `raw_code` — an integer when constructed with one, but the
one-character *string* `data[0]` on the error `raw_get` raises. -/
structure ErrorFrame where
  raw_code : PyScalar
deriving DecidableEq

/-- `Error.NADPresent`: `bool(self.raw_code & 0x80)` — `str & int` raises
`TypeError` when `raw_code` is a string. -/
def ErrorFrame.NADPresent (e : ErrorFrame) : Except PErr Bool :=
  match e.raw_code with
  | .int n => .ok (n &&& 0x80 != 0)
  | .str _ => .error .typeError

/-- `Error.MI`: `bool(self.raw_code & 0x40)` — `TypeError` on a string. -/
def ErrorFrame.MI (e : ErrorFrame) : Except PErr Bool :=
  match e.raw_code with
  | .int n => .ok (n &&& 0x40 != 0)
  | .str _ => .error .typeError

/-- `Error.error_code`: `self.raw_code & 0x3F` — `TypeError` on a string. -/
def ErrorFrame.error_code (e : ErrorFrame) : Except PErr Nat :=
  match e.raw_code with
  | .int n => .ok (n &&& 0x3F)
  | .str _ => .error .typeError

/-! ## Frame registry (the `Frame.__metaclass__` side effect)

The metaclass runs, for every class with a non-`None` `__code__`:
`if cls.sent is None: cls.sent = not (cls.__code__ & 1)` and then
`Frame._types[cls.__code__] = cls` — a plain dict assignment with no
duplicate check.  The registry is modelled as `Nat → Option String`
(class name per code); an absent code is a `KeyError` on lookup. -/

def Frame.emptyTypes : Nat → Option String := fun _ => none

/-- `Frame._types[code] = cls`: unconditional dict assignment. -/
def Frame.registerType (types : Nat → Option String) (code : Nat) (cls : String) :
    Nat → Option String :=
  fun c => if c = code then some cls else types c

/-- `Frame.get_class(code)`: `Frame._types[code]`; `none` models the
`KeyError` raised on an unregistered code. -/
def Frame.get_class (types : Nat → Option String) (code : Nat) : Option String := types code

/-- The metaclass default direction: `cls.sent = not (cls.__code__ & 1)`,
i.e. `True` exactly when the code is even. -/
def default_sent (code : Nat) : Bool := code &&& 1 == 0

/-- The classes registered by importing the package, in module execution
order: `pn532/__init__.py` then `pn532/Rf.py`.  (`pn532/In.py` is imported
by the package as well but its source is not part of this repository
checkout; no claim depends on its codes.) -/
def frameClassList : List (Nat × String) :=
  [(0x00, "Diagnose"), (0x01, "DiagnoseResponse"),
   (0x02, "GetFirmwareVersion"), (0x03, "GetFirmwareVersionResponse"),
   (0x04, "GetGeneralStatus"), (0x05, "GetGeneralStatusResponse"),
   (0x06, "ReadRegister"), (0x07, "ReadRegisterResponse"),
   (0x08, "WriteRegister"), (0x09, "WriteRegisterResponse"),
   (0x0C, "ReadGPIO"), (0x0D, "ReadGPIOResponse"),
   (0x0E, "WriteGPIO"), (0x0F, "WriteGPIOResponse"),
   (0x10, "SetSerialBaudRate"), (0x11, "SetSerialBaudRateResponse"),
   (0x12, "SetParameters"), (0x13, "SetParametersResponse"),
   (0x14, "SAMConfiguration"), (0x15, "SAMConfigurationResponse"),
   (0x16, "PowerDown"), (0x17, "PowerDownResponse"),
   (0x32, "RfConfiguration"), (0x33, "RfConfigurationResponse"),
   (0x58, "RfRegulationTest")]

/-- `Frame._types` as populated at import time. -/
def sourceRegistry : Nat → Option String :=
  frameClassList.foldl (fun m p => Frame.registerType m p.1 p.2) Frame.emptyTypes

/-! ## Synchronization / transport engine (`pn532/_stream.py`)

The serial port is a trace of read events.  Each call to
`self.serial.read(n)` consumes the next event and returns at most `n` of
its bytes (pyserial permits short reads; `read(0)` returns immediately
without touching the port), advancing the clock by the event's duration.
An exhausted trace models a port that never delivers another byte;
`PErr.streamEnd` marks runs that fall off the modelled trace. -/

/-- One `serial.read` interaction: the bytes the port hands back and the
wall-clock time the call took. -/
structure SerialEvent where
  data : List Nat
  dt : Int
deriving DecidableEq

/-- The shape of a frame returned by `raw_get`. -/
inductive RKind
  | ack
  | nack
  | data (sent : Bool) (code : Nat) (payload : List Nat)
deriving DecidableEq

/-- A received frame: its shape, plus the `command` attribute that `doit`
later sets to the originating request (`None` when fresh off the wire). -/
structure FrameR where
  kind : RKind
  command : Option TxFrame
deriving DecidableEq

/-- `self.serial.read(n)`: `read(0)` returns `''` at once; otherwise the
next trace event is consumed and truncated to at most `n` bytes. -/
def serialRead (n : Nat) (events : List SerialEvent) (now : Int) :
    Option (List Nat × List SerialEvent × Int) :=
  if n = 0 then some ([], events, now)
  else
    match events with
    | [] => none
    | e :: rest => some (e.data.take n, rest, now + e.dt)

/-- `stop is not None and stop < time.time()`. -/
def deadlineOver (stop : Option Int) (now : Int) : Bool :=
  match stop with
  | none => false
  | some st => st < now

/-- `"\x00\xFF" in header`. -/
def hasPreamble : List Nat → Bool
  | [] => false
  | _ :: [] => false
  | a :: b :: rest => (a == 0x00 && b == 0xFF) || hasPreamble (b :: rest)

/-- `header[header.index("\x00\xFF"):]` — drop everything before the first
occurrence of the two-byte start sequence. -/
def dropToPreamble : List Nat → List Nat
  | [] => []
  | a :: [] => [a]
  | a :: b :: rest =>
    if a == 0x00 && b == 0xFF then a :: b :: rest else dropToPreamble (b :: rest)

/-- The first loop of `raw_get`: read single bytes until the buffer
contains `00 FF`, checking the deadline after every read. -/
def seekPreamble (stop : Option Int) : List Nat → List SerialEvent → Int →
    (Except PErr (List Nat)) × List SerialEvent × Int
  | header, events, now =>
    if hasPreamble header then (.ok header, events, now)
    else
      match events with
      | [] => (.error .streamEnd, [], now)
      | e :: rest =>
        if deadlineOver stop (now + e.dt) then (.error .timeoutError, rest, now + e.dt)
        else seekPreamble stop (header ++ e.data.take 1) rest (now + e.dt)

/-- The `while len(header) < n` loops of `raw_get`: read single bytes
until the buffer holds `n` bytes, checking the deadline after every read. -/
def fillHeader (stop : Option Int) (n : Nat) : List Nat → List SerialEvent → Int →
    (Except PErr (List Nat)) × List SerialEvent × Int
  | header, events, now =>
    if header.length < n then
      match events with
      | [] => (.error .streamEnd, [], now)
      | e :: rest =>
        if deadlineOver stop (now + e.dt) then (.error .timeoutError, rest, now + e.dt)
        else fillHeader stop n (header ++ e.data.take 1) rest (now + e.dt)
    else (.ok header, events, now)

/-- The end of `raw_get` once the body has been read:
`_verifychecksum(data, DCS)`, then `TFI = data[0]`; a `0xD4`/`0xD5` tag
dispatches on `ccode = ord(data[1])` through the registry (`KeyError` on
an unregistered code), any other tag does `raise Error(TFI)` — note
`TFI = data[0]` is the one-character *string*, `ord` is never applied, so
the raised error carries `.str [TFI]`.  `f.sent` is set from the
direction tag comparison `TFI == "\xD4"`; the typed construction
`Frame.get_class(ccode).fromwire(payload)` is modelled by recording the
command code and the raw payload after the lookup. -/
def interpretPayload (data DCS : List Nat) (es : List SerialEvent) (now : Int) :
    (Except PErr FrameR) × List SerialEvent × Int :=
  if (data.sum + DCS.sum) % 256 = 0 then
    match data with
    | [] => (.error .indexError, es, now)
    | TFI :: rest =>
      if TFI = 0xD4 ∨ TFI = 0xD5 then
        match rest with
        | [] => (.error .indexError, es, now)
        | ccode :: payload =>
          match Frame.get_class sourceRegistry ccode with
          | none => (.error .keyError, es, now)
          | some _ => (.ok ⟨.data (TFI == 0xD4) ccode payload, none⟩, es, now)
      else (.error (.appError (.str [TFI])), es, now)
  else (.error .checksumError, es, now)

/-- The tail of `raw_get` once `LEN` is known: `data = read(LEN)`,
`DCS = read(1)`, then checksum verification and payload interpretation. -/
def readBody (LEN : Nat) (events : List SerialEvent) (now : Int) :
    (Except PErr FrameR) × List SerialEvent × Int :=
  match serialRead LEN events now with
  | none => (.error .streamEnd, events, now)
  | some (data, es1, now1) =>
    match serialRead 1 es1 now1 with
    | none => (.error .streamEnd, es1, now1)
    | some (DCS, es2, now2) => interpretPayload data DCS es2 now2

/-- Classification of the 4-byte header `00 FF LEN LCS` in `raw_get`:
ACK and NACK shapes return at once; `FF FF` switches to the extended
length (reading three more bytes and computing `LEN = LENM*0xFF + LENL`
— the source multiplies by 0xFF, i.e. 255); otherwise the normal length
checksum is verified. -/
def rawGetClassify (stop : Option Int) (header : List Nat) (events : List SerialEvent) (now : Int) :
    (Except PErr FrameR) × List SerialEvent × Int :=
  let LEN := header.getD 2 0
  let LCS := header.getD 3 0
  if LEN = 0 ∧ LCS = 0xFF then (.ok ⟨.ack, none⟩, events, now)
  else if LEN = 0xFF ∧ LCS = 0x00 then (.ok ⟨.nack, none⟩, events, now)
  else if LEN = 0xFF ∧ LCS = 0xFF then
    match fillHeader stop 7 header events now with
    | (.error e, es, t) => (.error e, es, t)
    | (.ok header7, es, t) =>
      let LENM := header7.getD 4 0
      let LENL := header7.getD 5 0
      let LCS2 := header7.getD 6 0
      if (LENM + LENL + LCS2) % 256 = 0 then readBody (LENM * 0xFF + LENL) es t
      else (.error .checksumError, es, t)
  else
    if (LEN + LCS) % 256 = 0 then readBody LEN events now
    else (.error .checksumError, events, now)

/-- `raw_get` after the preamble has been located: truncate the buffer to
start at `00 FF`, fill it to 4 bytes, classify. -/
def rawGetAfterSeek (stop : Option Int) (header : List Nat) (events : List SerialEvent) (now : Int) :
    (Except PErr FrameR) × List SerialEvent × Int :=
  match fillHeader stop 4 (dropToPreamble header) events now with
  | (.error e, es, t) => (.error e, es, t)
  | (.ok header4, es, t) => rawGetClassify stop header4 es t

/-- `PN532.raw_get(timeout)`: compute the absolute deadline
(`stop = time.time() + timeout` when a timeout is given), seek the frame
start, then parse one frame.  Checksum failures raise; NACK handling is
the caller's job. -/
def raw_get (timeout : Option Int) (events : List SerialEvent) (now : Int) :
    (Except PErr FrameR) × List SerialEvent × Int :=
  let stop := timeout.map (now + ·)
  match seekPreamble stop [] events now with
  | (.error e, es, t) => (.error e, es, t)
  | (.ok header, es, t) => rawGetAfterSeek stop header es t

/-! ## Connection-level operations -/

/-- The observable state of a connection: the remaining read-event trace,
the wall clock, and every byte written to the port so far. -/
structure PState where
  events : List SerialEvent
  now : Int
  written : List Nat
deriving DecidableEq

/-- `PN532.send(frame, preamble='\0', postamble='\0')`: writes
`preamble + frame.towire() + postamble` to the port.  If `towire` raises
(a `TypeError` out of `tobytes`), the exception propagates before
anything is written. -/
def PN532.send (frame : TxFrame) (preamble postamble : List Nat) (s : PState) :
    Except PErr PState :=
  match frame.towire with
  | .error e => .error e
  | .ok w => .ok { s with written := s.written ++ (preamble ++ w ++ postamble) }

/-- `PN532.get(timeout)`: loop `raw_get`; on `ChecksumError` send a NACK
(with the default one-byte pre/postamble) and retry with the same
`timeout` argument — `raw_get` recomputes its absolute deadline from the
clock at each retry.  The `while True` loop is rendered with a fuel of
`s.events.length + 1`: every `raw_get` that fails with `ChecksumError`
has consumed at least one trace event (`raw_get_checksum_consumes`
below), so on a finite trace the fuel is never exhausted and neither the
base case nor the guard's false branch is reachable.  (`send` of a NACK
cannot raise: `NACK.towire` is a literal, so its `.error` branch is
definitionally dead.) -/
def PN532.getAux : Nat → Option Int → PState → (Except PErr FrameR) × PState
  | 0, _, s => (.error .checksumError, s)
  | fuel + 1, timeout, s =>
    let r := raw_get timeout s.events s.now
    let s' : PState := ⟨r.2.1, r.2.2, s.written⟩
    if r.1 = .error .checksumError then
      if r.2.1.length < s.events.length then
        match PN532.send .nack [0x00] [0x00] s' with
        | .ok s2 => PN532.getAux fuel timeout s2
        | .error e => (.error e, s')
      else (.error .checksumError, s')
    else (r.1, s')

def PN532.get (timeout : Option Int) (s : PState) : (Except PErr FrameR) × PState :=
  PN532.getAux (s.events.length + 1) timeout s

/-- `PN532.doit(frame, timeout, **kw)`: send the frame (forwarding any
preamble/postamble), require an ACK, read the response, attach the
originating request to it, send a closing ACK, return the response. -/
def PN532.doit (frame : TxFrame) (timeout : Option Int) (pre post : List Nat) (s : PState) :
    (Except PErr FrameR) × PState :=
  match PN532.send frame pre post s with
  | .error e => (.error e, s)
  | .ok s1 =>
    match PN532.get timeout s1 with
    | (.error e, s2) => (.error e, s2)
    | (.ok ack, s2) =>
      match ack.kind with
      | .ack =>
        match PN532.get timeout s2 with
        | (.error e, s3) => (.error e, s3)
        | (.ok res, s3) =>
          match PN532.send .ack [0x00] [0x00] s3 with
          | .ok s4 => (.ok { res with command := some frame }, s4)
          | .error e => (.error e, s3)
      | _ => (.error .ioError, s2)

/-- The wake-up preamble used by `PN532.__enter__`:
`"\x55\x55\0\0\0\0\0\0\0\0\0\0\0\0\0\0\0"` — two 0x55 bytes followed by
fifteen zero bytes. -/
def wakeupPreamble : List Nat := [0x55, 0x55] ++ List.replicate 15 0x00

/-- `SAMConfiguration(1, 0, None)` as sent by `__enter__`: code 0x14,
direction from the even-code default, and `__payload__` returning
`(Mode,)` because `IRQ is None` and `Mode != 0x02`. -/
def samConfigurationNormal : FrameS := ⟨default_sent 0x14, 0x14, some [PField.num 1]⟩

/-- `PN532.__enter__` after `serial.open()`: send the SAM-configuration
frame wrapped in the wake-up preamble (default `'\0'` postamble), then
`try: get(timeout=1.0) except TimeoutError: pass else: self.get()`. -/
def PN532.enter (s : PState) : (Except PErr Unit) × PState :=
  match PN532.send (.generic samConfigurationNormal) wakeupPreamble [0x00] s with
  | .error e => (.error e, s)
  | .ok s1 =>
    match PN532.get (some 1) s1 with
    | (.error .timeoutError, s2) => (.ok (), s2)
    | (.error e, s2) => (.error e, s2)
    | (.ok _, s2) =>
      match PN532.get none s2 with
      | (.error e, s3) => (.error e, s3)
      | (.ok _, s3) => (.ok (), s3)

/-! ## Concrete traces used as test vectors -/

/-- A trace delivering each byte through its own `serial.read` call, all
instantaneous. -/
def mkEvents (bs : List Nat) : List SerialEvent := bs.map (fun b => ⟨[b], 0⟩)

/-- `GetFirmwareVersion()`: code 0x02, `__payload__` returns `None`,
direction from the even-code metaclass default. -/
def gfvFrame : TxFrame := .generic ⟨default_sent 0x02, 0x02, none⟩

/-- The bytes `send(GetFirmwareVersion())` writes (computed below). -/
def gfvWrite : List Nat := [0x00, 0x00, 0xFF, 0x02, 0xFE, 0xD4, 0x02, 0x2A, 0x00]

/-- A checksum-valid wire frame whose payload is the single byte `b`:
`00 FF 01 FF b checksum([b])`. -/
def errFrameEvents (b : Nat) : List SerialEvent :=
  mkEvents [0x00, 0xFF, 0x01, 0xFF, b, Frame.checksum [b]]

/-- Transaction trace: an ACK frame, then a GetFirmwareVersionResponse
(IC=0x32 Ver=1 Rev=6 Support=7). -/
def c3Trace : PState :=
  ⟨mkEvents [0x00, 0x00, 0xFF, 0x00, 0xFF, 0x00, 0x00, 0xFF, 0x06, 0xFA] ++
    [⟨[0xD5, 0x03, 0x32, 0x01, 0x06, 0x07], 0⟩, ⟨[0xE8], 0⟩], 0, []⟩

/-- `c3Trace` after the request bytes were written. -/
def c3S1 : PState := ⟨c3Trace.events, 0, gfvWrite⟩

/-- `c3Trace` after the request was sent and the ACK consumed. -/
def c3S2 : PState :=
  ⟨mkEvents [0x00, 0x00, 0xFF, 0x06, 0xFA] ++
    [⟨[0xD5, 0x03, 0x32, 0x01, 0x06, 0x07], 0⟩, ⟨[0xE8], 0⟩], 0, gfvWrite⟩

/-- `c3Trace` fully consumed. -/
def c3S3 : PState := ⟨[], 0, gfvWrite⟩

/-- Transaction trace: an ACK frame, then an application error frame with
status byte 0x01 (`00 FF 01 FF 01 FF`). -/
def c10Trace : PState :=
  ⟨mkEvents [0x00, 0x00, 0xFF, 0x00, 0xFF, 0x00, 0x00, 0xFF, 0x01, 0xFF, 0x01, 0xFF], 0, []⟩

/-- `c10Trace` after the request bytes were written. -/
def c10S1 : PState := ⟨c10Trace.events, 0, gfvWrite⟩

/-- `c10Trace` after the request was sent and the ACK consumed. -/
def c10S2 : PState := ⟨mkEvents [0x00, 0x00, 0xFF, 0x01, 0xFF, 0x01, 0xFF], 0, gfvWrite⟩

/-- `c10Trace` fully consumed. -/
def c10S3 : PState := ⟨[], 0, gfvWrite⟩

/-- A corrupt frame header `00 FF 01 00` arriving during the first second,
followed by an ACK whose first byte lands at t=2 — after the caller's
1-second window starting at t=0 has expired. -/
def c4State : PState :=
  ⟨[⟨[0x00], 1⟩, ⟨[0xFF], 0⟩, ⟨[0x01], 0⟩, ⟨[0x00], 0⟩,
    ⟨[0x00], 1⟩, ⟨[0xFF], 0⟩, ⟨[0x00], 0⟩, ⟨[0xFF], 0⟩], 0, []⟩

lemma checksum_cast (data : List Nat) :
    (Frame.checksum data : Int) = (-(data.sum : Int)) % 256 := by
  unfold Frame.checksum
  exact Int.toNat_of_nonneg (Int.emod_nonneg _ (by norm_num))

lemma checksum_lt (data : List Nat) : Frame.checksum data < 256 := by
  have h : (-(data.sum : Int)) % 256 < 256 := Int.emod_lt_of_pos _ (by norm_num)
  have hc := checksum_cast data
  omega

lemma checksum_add_mod (data : List Nat) :
    (data.sum + Frame.checksum data) % 256 = 0 := by
  have hint : ((data.sum : Int) + (-(data.sum : Int)) % 256) % 256 = 0 := by
    rw [Int.add_emod, Int.emod_emod_of_dvd _ (dvd_refl _), ← Int.add_emod]
    simp
  have hc := checksum_cast data
  have hcast : ((data.sum + Frame.checksum data : Nat) : Int) % 256 = 0 := by
    rw [Nat.cast_add, hc]
    exact hint
  omega

lemma send_nack_eq (pre post : List Nat) (s : PState) :
    PN532.send .nack pre post s =
      .ok ⟨s.events, s.now, s.written ++ (pre ++ [0x00, 0x00, 0xFF, 0xFF, 0x00, 0x00] ++ post)⟩ :=
  rfl

lemma send_ack_eq (pre post : List Nat) (s : PState) :
    PN532.send .ack pre post s =
      .ok ⟨s.events, s.now, s.written ++ (pre ++ [0x00, 0x00, 0xFF, 0x00, 0xFF, 0x00] ++ post)⟩ :=
  rfl

/-! ## Event-consumption lemmas

Each `serial.read` consumes at most the head of the trace, so every stage
of `raw_get` is monotone in the trace, and a `ChecksumError` can only be
raised after the frame start was found, i.e. after at least one event was
consumed.  This justifies the fuel given to `PN532.getAux`. -/

lemma serialRead_events_le {n : Nat} {events : List SerialEvent} {now : Int}
    {d : List Nat} {es : List SerialEvent} {t : Int}
    (h : serialRead n events now = some (d, es, t)) : es.length ≤ events.length := by
  unfold serialRead at h
  split at h
  · simp only [Option.some.injEq, Prod.mk.injEq] at h
    obtain ⟨-, h2, -⟩ := h
    simp [← h2]
  · cases events with
    | nil => simp at h
    | cons e rest =>
      simp only [Option.some.injEq, Prod.mk.injEq] at h
      obtain ⟨-, h2, -⟩ := h
      simp [← h2]

lemma seekPreamble_events_le (stop : Option Int) (events : List SerialEvent) :
    ∀ (header : List Nat) (now : Int),
    (seekPreamble stop header events now).2.1.length ≤ events.length := by
  induction events with
  | nil =>
    intro header now
    simp only [seekPreamble]
    split <;> simp
  | cons e rest ih =>
    intro header now
    simp only [seekPreamble]
    split
    · simp
    · split
      · simp
      · exact le_trans (ih _ _) (by simp)

lemma fillHeader_events_le (stop : Option Int) (n : Nat) (events : List SerialEvent) :
    ∀ (header : List Nat) (now : Int),
    (fillHeader stop n header events now).2.1.length ≤ events.length := by
  induction events with
  | nil =>
    intro header now
    simp only [fillHeader]
    split <;> simp
  | cons e rest ih =>
    intro header now
    simp only [fillHeader]
    split
    · split
      · simp
      · exact le_trans (ih _ _) (by simp)
    · simp

lemma interpretPayload_events (data DCS : List Nat) (es : List SerialEvent) (now : Int) :
    (interpretPayload data DCS es now).2.1 = es := by
  unfold interpretPayload
  repeat' split
  all_goals rfl

lemma readBody_events_le (LEN : Nat) (events : List SerialEvent) (now : Int) :
    (readBody LEN events now).2.1.length ≤ events.length := by
  unfold readBody
  rcases h1 : serialRead LEN events now with - | ⟨d, es1, t1⟩
  · simp
  · have hle1 := serialRead_events_le h1
    simp only [h1]
    rcases h2 : serialRead 1 es1 t1 with - | ⟨d2, es2, t2⟩
    · simpa using hle1
    · have hle2 := serialRead_events_le h2
      simp only [h2, interpretPayload_events]
      exact le_trans hle2 hle1

lemma rawGetClassify_events_le (stop : Option Int) (header : List Nat)
    (events : List SerialEvent) (now : Int) :
    (rawGetClassify stop header events now).2.1.length ≤ events.length := by
  rcases hf : fillHeader stop 7 header events now with ⟨r, es, t⟩
  have hfle : es.length ≤ events.length := by
    have h7 := fillHeader_events_le stop 7 events header now
    rw [hf] at h7
    exact h7
  cases r with
  | error e =>
    simp only [rawGetClassify, hf]
    split
    · simp
    · split
      · simp
      · split
        · simpa using hfle
        · split
          · exact readBody_events_le _ _ _
          · simp
  | ok header7 =>
    simp only [rawGetClassify, hf]
    split
    · simp
    · split
      · simp
      · split
        · split
          · exact le_trans (readBody_events_le _ _ _) hfle
          · simpa using hfle
        · split
          · exact readBody_events_le _ _ _
          · simp

lemma rawGetAfterSeek_events_le (stop : Option Int) (header : List Nat)
    (events : List SerialEvent) (now : Int) :
    (rawGetAfterSeek stop header events now).2.1.length ≤ events.length := by
  rcases hf : fillHeader stop 4 (dropToPreamble header) events now with ⟨r, es, t⟩
  have hfle : es.length ≤ events.length := by
    have h4 := fillHeader_events_le stop 4 events (dropToPreamble header) now
    rw [hf] at h4
    exact h4
  cases r with
  | error e => simpa [rawGetAfterSeek, hf] using hfle
  | ok header4 =>
    simp only [rawGetAfterSeek, hf]
    exact le_trans (rawGetClassify_events_le _ _ _ _) hfle

lemma raw_get_events_le (t : Option Int) (events : List SerialEvent) (now : Int) :
    (raw_get t events now).2.1.length ≤ events.length := by
  rcases hs : seekPreamble (Option.map (fun x => now + x) t) [] events now with ⟨r, es, tt⟩
  have hsle : es.length ≤ events.length := by
    have h0 := seekPreamble_events_le (Option.map (fun x => now + x) t) events [] now
    rw [hs] at h0
    exact h0
  cases r with
  | error e => simpa [raw_get, hs] using hsle
  | ok header =>
    simp only [raw_get, hs]
    exact le_trans (rawGetAfterSeek_events_le _ _ _ _) hsle

/-- The first iteration of the preamble seek always consumes the head
event: the buffer starts empty, so `"\x00\xFF" in header` is false. -/
lemma seekPreamble_progress (stop : Option Int) (e : SerialEvent)
    (rest : List SerialEvent) (now : Int) :
    (seekPreamble stop [] (e :: rest) now).2.1.length ≤ rest.length := by
  simp only [seekPreamble, hasPreamble, Bool.false_eq_true, if_false]
  split
  · simp
  · exact seekPreamble_events_le _ _ _ _

/-- A `ChecksumError` out of `raw_get` has consumed at least one trace
event: the preamble seek starts from an empty buffer, so it must read
before any checksum is examined. -/
lemma raw_get_checksum_consumes (t : Option Int) (events : List SerialEvent) (now : Int)
    (h : (raw_get t events now).1 = .error .checksumError) :
    (raw_get t events now).2.1.length < events.length := by
  cases events with
  | nil => simp [raw_get, seekPreamble, hasPreamble] at h
  | cons e rest =>
    have hp := seekPreamble_progress (Option.map (fun x => now + x) t) e rest now
    rcases hs : seekPreamble (Option.map (fun x => now + x) t) [] (e :: rest) now
      with ⟨r, es, tt⟩
    rw [hs] at hp
    simp only at hp
    cases r with
    | error e2 =>
      simp only [raw_get, hs, List.length_cons]
      omega
    | ok header =>
      have hle := rawGetAfterSeek_events_le (Option.map (fun x => now + x) t) header es tt
      simp only [raw_get, hs, List.length_cons]
      omega

/-! ## Behaviour of `PN532.get` -/

/-- With sufficient fuel (more than the trace length) the retry loop never
hits its artificial cut-offs: a `ChecksumError` is always absorbed. -/
lemma getAux_no_checksum : ∀ (fuel : Nat) (t : Option Int) (s : PState),
    s.events.length < fuel →
    (PN532.getAux fuel t s).1 ≠ .error .checksumError := by
  intro fuel
  induction fuel with
  | zero => intro t s h; omega
  | succ n ih =>
    intro t s h
    simp only [PN532.getAux]
    split
    · rename_i hcs
      have hlt := raw_get_checksum_consumes t s.events s.now (by
        rcases hr : raw_get t s.events s.now with ⟨r1, es, tt⟩
        rw [hr] at hcs
        simpa using hcs)
      rw [if_pos hlt]
      exact ih t _ (by simpa using lt_of_lt_of_le hlt (Nat.lt_succ_iff.mp h))
    · rename_i hcs
      simpa using hcs

/-- Fuel irrelevance: any fuel above the trace length computes the same
result, so `PN532.get`'s choice of `length + 1` is canonical. -/
lemma getAux_fuel_congr : ∀ (f1 f2 : Nat) (t : Option Int) (s : PState),
    s.events.length < f1 → s.events.length < f2 →
    PN532.getAux f1 t s = PN532.getAux f2 t s := by
  intro f1
  induction f1 with
  | zero => intro f2 t s h1 h2; omega
  | succ n ih =>
    intro f2 t s h1 h2
    cases f2 with
    | zero => omega
    | succ m =>
      simp only [PN532.getAux]
      split
      · rename_i hcs
        have hlt := raw_get_checksum_consumes t s.events s.now (by
          rcases hr : raw_get t s.events s.now with ⟨r1, es, tt⟩
          rw [hr] at hcs
          simpa using hcs)
        rw [if_pos hlt, if_pos hlt]
        exact ih m t _ (by simpa using lt_of_lt_of_le hlt (Nat.lt_succ_iff.mp h1))
          (by simpa using lt_of_lt_of_le hlt (Nat.lt_succ_iff.mp h2))
      · rfl

/-- `PN532.get` never surfaces a `ChecksumError` to its caller. -/
lemma get_no_checksum (t : Option Int) (s : PState) :
    (PN532.get t s).1 ≠ .error .checksumError :=
  getAux_no_checksum _ t s (Nat.lt_succ_self _)

/-- Unfolding `PN532.get` when `raw_get` does not raise `ChecksumError`:
the result is returned unchanged. -/
lemma get_of_raw_not_checksum (t : Option Int) (s : PState)
    (h : (raw_get t s.events s.now).1 ≠ .error .checksumError) :
    PN532.get t s = ((raw_get t s.events s.now).1,
      ⟨(raw_get t s.events s.now).2.1, (raw_get t s.events s.now).2.2, s.written⟩) := by
  unfold PN532.get PN532.getAux
  rw [if_neg h]

/-- Unfolding `PN532.get` when `raw_get` raises `ChecksumError`: the NACK
bytes (default `'\0'` pre/postamble around the NACK literal) are written
and `get` restarts with the same `timeout` duration — the absolute
deadline is recomputed inside the retried `raw_get` from the clock at
retry time. -/
lemma get_of_raw_checksum (t : Option Int) (s : PState)
    (h : (raw_get t s.events s.now).1 = .error .checksumError) :
    PN532.get t s = PN532.get t
      ⟨(raw_get t s.events s.now).2.1, (raw_get t s.events s.now).2.2,
       s.written ++ [0x00, 0x00, 0x00, 0xFF, 0xFF, 0x00, 0x00, 0x00]⟩ := by
  have hlt := raw_get_checksum_consumes t s.events s.now h
  have hstep : PN532.getAux (s.events.length + 1) t s =
      PN532.getAux s.events.length t
        ⟨(raw_get t s.events s.now).2.1, (raw_get t s.events s.now).2.2,
         s.written ++ [0x00, 0x00, 0x00, 0xFF, 0xFF, 0x00, 0x00, 0x00]⟩ := by
    simp only [PN532.getAux]
    rw [if_pos h, if_pos hlt, send_nack_eq]
    rfl
  unfold PN532.get
  rw [hstep]
  apply getAux_fuel_congr
  · simpa using hlt
  · simp

/-! ## Claim theorems -/

lemma tobytesAux_length : ∀ (l n : Nat), (tobytesAux n l).length = l := by
  intro l
  induction l with
  | zero => intro n; rfl
  | succ m ih => intro n; simp [tobytesAux, ih]

/-- C2: for every byte sequence `B` (and a single integer, treated as the
one-element sequence `[n]`), `checksum(B)` equals `(-sum(B)) mod 256`, is
a single byte in `0..255`, and `sum(B ++ [checksum(B)]) mod 256 == 0`. -/
theorem checksum_spec :
    ∀ B : List Nat,
      (Frame.checksum B : Int) = (-(B.sum : Int)) % 256 ∧
      Frame.checksum B < 256 ∧
      (B ++ [Frame.checksum B]).sum % 256 = 0 ∧
      ∀ n : Nat, Frame.checksumNum n = Frame.checksum [n] :=
  fun B => ⟨checksum_cast B, checksum_lt B,
    by simpa using checksum_add_mod B, fun _ => rfl⟩

/-- C6: `tobytes` never serializes anything: every call raises
`TypeError`, because `return bytepack(rv)` passes the whole `rv` list as
a single vararg and `chr(rv)` is ill-typed.  In particular
`tobytes(0x0102, 2)` does not return the claimed big-endian
`[0x01, 0x02]` (nor any bytes), and a frame with a `(value, length)`
field cannot be built.  The `rv` list the loop assembles before the
crash does have exactly `l` entries, but least-significant-byte first
(`[0x02, 0x01]` for 0x0102), contradicting the docstring's "big-endian"
as well. -/
theorem tobytes_typeerror_bug :
    (∀ (n l : Nat), tobytes n l = .error .typeError) ∧
    tobytes 0x0102 2 = .error .typeError ∧
    tobytesAux 0x0102 2 = [0x02, 0x01] ∧
    (∀ (n l : Nat), (tobytesAux n l).length = l) ∧
    Frame.buildpayload true 0x06 (some [PField.lenval 0x0102 2]) = .error .typeError := by
  refine ⟨fun n l => rfl, by decide, by decide, fun n l => tobytesAux_length l n, by decide⟩

/-- C7 counterexample: registering a second frame type under an already
taken command code does not fail with any `DuplicateCode` error — the
dict assignment in the metaclass silently replaces the first entry. -/
theorem register_duplicate_replaces :
    Frame.get_class
      (Frame.registerType (Frame.registerType Frame.emptyTypes 0x00 "Diagnose")
        0x00 "SecondType") 0x00 = some "SecondType" ∧
    ("SecondType" : String) ≠ "Diagnose" := by
  exact ⟨rfl, by decide⟩

/-- C7 amended: registration maps the code to the new type, replacing any
earlier registration silently; looking up a code nothing registered (for
example 0x0A) fails (`KeyError`, modelled as `none`); and the metaclass
default direction is `sent = (code % 2 == 0)`. -/
theorem registry_spec :
    (∀ (m : Nat → Option String) (c : Nat) (x y : String),
      Frame.get_class (Frame.registerType m c x) c = some x ∧
      Frame.get_class (Frame.registerType (Frame.registerType m c x) c y) c = some y) ∧
    Frame.get_class sourceRegistry 0x0A = none ∧
    (∀ code : Nat, default_sent code = decide (code % 2 = 0)) := by
  refine ⟨fun m c x y => ⟨by simp [Frame.get_class, Frame.registerType],
    by simp [Frame.get_class, Frame.registerType]⟩, by decide, fun code => ?_⟩
  simp only [default_sent, Nat.and_one_is_mod]
  by_cases hc : code % 2 = 0 <;> simp [hc]

/-- C8 counterexample: the byte sequence `send(GetFirmwareVersion())`
actually writes is `00 00 FF 02 FE D4 02 2A 00`: the data checksum is
0x2A (`-(0xD4+0x02) mod 256`), not 0x1A, and the default `'\0'` preamble
precedes the `00 FF` start code.  The claimed sequence
`00 FF 02 FE D4 02 1A 00` is therefore not what is written. -/
theorem send_gfv_counterexample :
    PN532.send gfvFrame [0x00] [0x00] ⟨[], 0, []⟩ = .ok ⟨[], 0, gfvWrite⟩ ∧
    gfvWrite ≠ [0x00, 0xFF, 0x02, 0xFE, 0xD4, 0x02, 0x1A, 0x00] := by
  exact ⟨by decide, by decide⟩

/-- C8 amended: from any prior state, sending a GetFirmwareVersion request
(code 0x02, no fields) through `send` with the default one-byte
preamble/postamble appends exactly `00 00 FF 02 FE D4 02 2A 00` to the
channel (preamble 00, start 00 FF, len 02, lcs FE, payload D4 02, dcs 2A,
postamble 00). -/
theorem send_gfv_bytes :
    ∀ s : PState, PN532.send gfvFrame [0x00] [0x00] s =
      .ok ⟨s.events, s.now, s.written ++ gfvWrite⟩ := by
  intro s
  rfl

/-- C5: a checksum-valid frame whose payload begins with a byte other
than 0xD4/0xD5 does make the read fail with the application `Error`, but
the error carries `data[0]` — the one-character *string*, `ord` never
being applied — so the claimed bit-field decomposition cannot be
produced from the raised error: `NADPresent`, `MI` and `error_code` all
raise `TypeError` (`str & int`) on it.  The decomposition behaves as the
claim says only for an integer status, as the same accessors show:
0x01 gives (false, false, 1) and 0xC1 gives (true, true, 1). -/
theorem error_frame_status_bug :
    (raw_get none (errFrameEvents 0x01) 0).1 = .error (.appError (.str [0x01])) ∧
    (raw_get none (errFrameEvents 0xC1) 0).1 = .error (.appError (.str [0xC1])) ∧
    ((ErrorFrame.mk (.str [0x01])).NADPresent = .error .typeError ∧
     (ErrorFrame.mk (.str [0x01])).MI = .error .typeError ∧
     (ErrorFrame.mk (.str [0x01])).error_code = .error .typeError) ∧
    ((ErrorFrame.mk (.int 0x01)).NADPresent = .ok false ∧
     (ErrorFrame.mk (.int 0x01)).MI = .ok false ∧
     (ErrorFrame.mk (.int 0x01)).error_code = .ok 1) ∧
    ((ErrorFrame.mk (.int 0xC1)).NADPresent = .ok true ∧
     (ErrorFrame.mk (.int 0xC1)).MI = .ok true ∧
     (ErrorFrame.mk (.int 0xC1)).error_code = .ok 1) := by
  refine ⟨by decide, by decide, ⟨rfl, rfl, rfl⟩, by decide, by decide⟩

/-- C3: in `doit(frame, timeout)`, once the encoded frame is written the
first frame read must be an ACK — anything else raises `IOError`, a
transport error distinct from the application `Error` whatever the
latter carries; when it is an ACK, the second frame read is returned
with its `command` attribute set to the originating request, and the
ACK bytes (with the default one-byte pre/postamble) are written to the
channel before returning. -/
theorem doit_transaction (f : TxFrame) (t : Option Int) (pre post : List Nat)
    (s s1 s2 s3 : PState) (g res : FrameR)
    (hsend : PN532.send f pre post s = .ok s1)
    (hack : PN532.get t s1 = (.ok g, s2)) :
    (g.kind ≠ .ack →
      PN532.doit f t pre post s = (.error .ioError, s2) ∧
      (∀ c : PyScalar, PErr.ioError ≠ PErr.appError c)) ∧
    (g.kind = .ack → PN532.get t s2 = (.ok res, s3) →
      PN532.doit f t pre post s =
        (.ok ⟨res.kind, some f⟩,
         ⟨s3.events, s3.now,
          s3.written ++ ([0x00] ++ [0x00, 0x00, 0xFF, 0x00, 0xFF, 0x00] ++ [0x00])⟩)) := by
  constructor
  · intro hne
    constructor
    · simp only [PN532.doit, hsend, hack]
    · exact fun c h => PErr.noConfusion h
  · intro hk hres
    simp only [PN532.doit, hsend, hack, hk, hres, send_ack_eq]

/-- C3 witness: the GetFirmwareVersion transaction on a trace answering
ACK then a GetFirmwareVersionResponse. -/
theorem doit_transaction_witness :
    PN532.doit gfvFrame none [0x00] [0x00] c3Trace =
      (.ok ⟨.data false 0x03 [0x32, 0x01, 0x06, 0x07], some gfvFrame⟩,
       ⟨c3S3.events, c3S3.now,
        c3S3.written ++ ([0x00] ++ [0x00, 0x00, 0xFF, 0x00, 0xFF, 0x00] ++ [0x00])⟩) := by
  have h0 : PN532.send gfvFrame [0x00] [0x00] c3Trace = .ok c3S1 := by decide
  have h1 : PN532.get none c3S1 = (.ok ⟨.ack, none⟩, c3S2) := by decide
  have h2 : PN532.get none c3S2 =
      (.ok ⟨.data false 0x03 [0x32, 0x01, 0x06, 0x07], none⟩, c3S3) := by decide
  exact (doit_transaction gfvFrame none [0x00] [0x00] c3Trace c3S1 c3S2 c3S3
    ⟨.ack, none⟩ ⟨.data false 0x03 [0x32, 0x01, 0x06, 0x07], none⟩ h0 h1).2 rfl h2

/-- C10: if the response read inside `doit` fails with the application
`Error`, that error propagates as `doit`'s result and the final state is
exactly the state the failing read left behind — no closing ACK is
written afterwards and no paired response is produced. -/
theorem doit_error_no_ack (f : TxFrame) (t : Option Int) (pre post : List Nat)
    (s s1 s2 s3 : PState) (g : FrameR) (c : PyScalar)
    (hsend : PN532.send f pre post s = .ok s1)
    (hack : PN532.get t s1 = (.ok g, s2))
    (hg : g.kind = .ack)
    (herr : PN532.get t s2 = (.error (.appError c), s3)) :
    PN532.doit f t pre post s = (.error (.appError c), s3) ∧
    (PN532.doit f t pre post s).2.written = s3.written := by
  have hd : PN532.doit f t pre post s = (.error (.appError c), s3) := by
    simp only [PN532.doit, hsend, hack, hg, herr]
  exact ⟨hd, by rw [hd]⟩

/-- C10 witness: a transaction whose response is the error frame with
status byte 0x01 ends with that application error (carrying the
one-character string), the channel state being the one the failing read
produced — only the request bytes were written. -/
theorem doit_error_no_ack_witness :
    PN532.doit gfvFrame none [0x00] [0x00] c10Trace =
      (.error (.appError (.str [0x01])), c10S3) := by
  have h0 : PN532.send gfvFrame [0x00] [0x00] c10Trace = .ok c10S1 := by decide
  have h1 : PN532.get none c10S1 = (.ok ⟨.ack, none⟩, c10S2) := by decide
  have h2 : PN532.get none c10S2 = (.error (.appError (.str [0x01])), c10S3) := by decide
  exact (doit_error_no_ack gfvFrame none [0x00] [0x00] c10Trace c10S1 c10S2 c10S3
    ⟨.ack, none⟩ (.str [0x01]) h0 h1 rfl h2).1

/-- C4 counterexample: `get(timeout=1)` started at time 0 succeeds at
time 2, after the claimed single overall window `[0, 1]` has expired: the
corrupt frame absorbs the first window (ChecksumError at t=1, one NACK
written), and the retried `raw_get` recomputes its deadline as 1+1=2, so
the ACK arriving at t=2 is accepted rather than timed out.  The deadline
is therefore not fixed once for the whole `get` call. -/
theorem get_retry_extends_deadline :
    PN532.get (some 1) c4State =
      (.ok ⟨.ack, none⟩, ⟨[], 2, [0x00, 0x00, 0x00, 0xFF, 0xFF, 0x00, 0x00, 0x00]⟩) ∧
    ¬((2 : Int) ≤ c4State.now + 1) := by
  exact ⟨by decide, by decide⟩

/-- C4 amended: `ChecksumError` is never surfaced by `get`; a `Timeout`
from `raw_get` propagates unchanged without retry; and on `ChecksumError`
`get` writes one NACK (the bytes `00 00 00 FF FF 00 00 00`: the literal
wrapped in the default one-byte pre/postamble) and restarts with the
same `timeout` *duration* —
the absolute deadline is recomputed inside the retried `raw_get` from the
clock at retry time, so the window restarts on every retry instead of
being fixed once for the whole call. -/
theorem get_checksum_retry_spec :
    (∀ (t : Option Int) (s : PState), (PN532.get t s).1 ≠ .error .checksumError) ∧
    (∀ (t : Option Int) (s : PState),
      (raw_get t s.events s.now).1 = .error .timeoutError →
      PN532.get t s = (.error .timeoutError,
        ⟨(raw_get t s.events s.now).2.1, (raw_get t s.events s.now).2.2, s.written⟩)) ∧
    (∀ (t : Option Int) (s : PState),
      (raw_get t s.events s.now).1 = .error .checksumError →
      PN532.get t s = PN532.get t
        ⟨(raw_get t s.events s.now).2.1, (raw_get t s.events s.now).2.2,
         s.written ++ [0x00, 0x00, 0x00, 0xFF, 0xFF, 0x00, 0x00, 0x00]⟩) := by
  refine ⟨get_no_checksum, fun t s h => ?_, get_of_raw_checksum⟩
  rw [get_of_raw_not_checksum t s (by rw [h]; simp), h]

/-- C4 witness: on the corrupt-then-ACK trace the first `raw_get` fails
the length checksum, and `get` equals a NACK write followed by a restart
of itself on the remaining trace. -/
theorem get_checksum_retry_spec_witness :
    PN532.get (some 1) c4State = PN532.get (some 1)
      ⟨(raw_get (some 1) c4State.events c4State.now).2.1,
       (raw_get (some 1) c4State.events c4State.now).2.2,
       c4State.written ++ [0x00, 0x00, 0x00, 0xFF, 0xFF, 0x00, 0x00, 0x00]⟩ :=
  get_checksum_retry_spec.2.2 (some 1) c4State (by decide)

/-- C9 counterexample: the wake-up preamble written by `__enter__` is
`55 55` followed by fifteen `00` bytes — 17 bytes, not 16. -/
theorem wakeup_preamble_seventeen :
    wakeupPreamble.length = 17 ∧ wakeupPreamble.length ≠ 16 := by
  exact ⟨by decide, by decide⟩

/-- C9 amended: on open, the connection sends the SAM-configuration
frame (mode 1 = normal) wrapped in the fixed 17-byte wake-up preamble and
the default `'\0'` postamble, then attempts one read with a 1-second
deadline; a `Timeout` there is discarded and `enter` succeeds with no
further read, while a received frame triggers exactly one more
unconditional (deadline-free) read whose outcome is `enter`'s outcome. -/
theorem enter_spec (s s1 : PState)
    (hsend : PN532.send (.generic samConfigurationNormal) wakeupPreamble [0x00] s = .ok s1) :
    (s1.written =
      s.written ++ (wakeupPreamble ++ [0x00, 0xFF, 0x03, 0xFD, 0xD4, 0x14, 0x01, 0x17] ++ [0x00]) ∧
     wakeupPreamble.length = 17) ∧
    (∀ s2 : PState, PN532.get (some 1) s1 = (.error .timeoutError, s2) →
      PN532.enter s = (.ok (), s2)) ∧
    (∀ (g : FrameR) (s2 : PState), PN532.get (some 1) s1 = (.ok g, s2) →
      PN532.enter s = ((PN532.get none s2).1.map (fun _ => ()), (PN532.get none s2).2)) := by
  have hsam : PN532.send (.generic samConfigurationNormal) wakeupPreamble [0x00] s =
      .ok ⟨s.events, s.now,
        s.written ++ (wakeupPreamble ++ [0x00, 0xFF, 0x03, 0xFD, 0xD4, 0x14, 0x01, 0x17] ++ [0x00])⟩ :=
    rfl
  have hs1 : s1 = ⟨s.events, s.now,
      s.written ++ (wakeupPreamble ++ [0x00, 0xFF, 0x03, 0xFD, 0xD4, 0x14, 0x01, 0x17] ++ [0x00])⟩ :=
    Except.ok.inj (hsend.symm.trans hsam)
  refine ⟨⟨by rw [hs1], by decide⟩, fun s2 h => ?_, fun g s2 h => ?_⟩
  · simp only [PN532.enter, hsend, h]
  · simp only [PN532.enter, hsend, h]
    rcases hr : PN532.get none s2 with ⟨r, s3⟩
    cases r with
    | error e => cases e <;> simp [hr, Except.map]
    | ok v => simp [hr, Except.map]

/-- C9 witness: a port that stays silent for two time units makes the
1-second read time out; `enter` discards the timeout and succeeds having
written only the wrapped SAM-configuration frame. -/
theorem enter_spec_witness :
    PN532.enter ⟨[⟨[], 2⟩], 0, []⟩ =
      (.ok (), ⟨[], 2,
        [] ++ (wakeupPreamble ++ [0x00, 0xFF, 0x03, 0xFD, 0xD4, 0x14, 0x01, 0x17] ++ [0x00])⟩) :=
  (enter_spec ⟨[⟨[], 2⟩], 0, []⟩
    ⟨[⟨[], 2⟩], 0,
     [] ++ (wakeupPreamble ++ [0x00, 0xFF, 0x03, 0xFD, 0xD4, 0x14, 0x01, 0x17] ++ [0x00])⟩
    (by decide)).2.1
    ⟨[], 2, [] ++ (wakeupPreamble ++ [0x00, 0xFF, 0x03, 0xFD, 0xD4, 0x14, 0x01, 0x17] ++ [0x00])⟩
    (by decide)
